import Mathlib

/-!
Shallow embedding of the BrewHaven coffee-shop backend (src/crud.py, src/main.py,
src/admin_api.py, src/dependencies.py, src/models.py, src/schemas.py) together with
theorems settling the frozen claims about it.

Modelling conventions:
* The relational store is a list of rows per table; `SELECT ... WHERE` is `List.find?` /
  `List.filter`, `OFFSET`/`LIMIT` are `List.drop`/`List.take`, `UPDATE ... WHERE` maps
  an update function over the matching rows, and `INSERT` appends (autoincrement ids).
* Monetary `Float` columns are modelled as rationals; the claims do not concern
  floating-point rounding.
* Python dicts used as in-memory maps (`active_payment_checks`, JWT payloads) are
  association lists with Python's assignment semantics (replace first occurrence in
  place, else append).
* Nondeterministic externals (wall-clock date strings, the `uuid4` suffix, "now" in
  seconds) are explicit parameters.
* `hashlib.sha256(...).hexdigest()` is an external primitive and is passed as a
  function parameter `sha256hex : String → String`; the one property of it used by any
  theorem is that hex digests have length 64 (`Sha256Like`).
* `dict.get(key, default)` calls on rows fetched with `SELECT *` are inert (every
  column key is present), so row-shaping code like `order_dict.get('status', 'pending')`
  is embedded as the identity on the fetched row.
-/

namespace CoffeeBackend

/-! ## Python dict on association lists -/

/-- Python dict lookup `m.get(k)` over an association list. -/
def dget {α : Type} : List (String × α) → String → Option α
  | [], _ => none
  | p :: t, k => if p.1 == k then some p.2 else dget t k

/-- Python dict assignment `m[k] = v`: replace the value at an existing key in place,
otherwise append the new binding. -/
def dset {α : Type} : List (String × α) → String → α → List (String × α)
  | [], k, v => [(k, v)]
  | p :: t, k, v => if p.1 == k then (k, v) :: t else p :: dset t k v

/-! ## Password hashing (crud.py lines 13-22) -/

/-- crud.SALT. -/
def SALT : String := "brewhaven-coffee-shop-salt"

/-- crud.get_password_hash: `hashlib.sha256(f"{password}{SALT}".encode()).hexdigest()`,
with the SHA-256 hex digest as an abstract external primitive. -/
def get_password_hash (sha256hex : String → String) (password : String) : String :=
  sha256hex (password ++ SALT)

/-- crud.verify_password: hash the plain password and compare. -/
def verify_password (sha256hex : String → String) (plain_password hashed_password : String) :
    Bool :=
  get_password_hash sha256hex plain_password == hashed_password

/-- The observable shape of `hashlib.sha256(...).hexdigest()`: every digest is a
64-character hex string. -/
def Sha256Like (h : String → String) : Prop := ∀ s, (h s).length = 64

/-- A stand-in digest function with the output shape of SHA-256 hexdigest, used to
evaluate the abstract-hash theorems at a concrete input. -/
def hashStub : String → String := fun _ => String.mk (List.replicate 64 'a')

/-! ## JWT tokens (crud.py lines 24-34) -/

/-- JSON-ish values appearing in a JWT payload. -/
inductive JVal where
  | str (s : String)
  | num (n : Nat)
deriving DecidableEq, Repr

/-- crud.ACCESS_TOKEN_EXPIRE_MINUTES = 60 * 24. -/
def ACCESS_TOKEN_EXPIRE_MINUTES : Nat := 60 * 24

/-- crud.create_access_token: copy the data dict and set
`exp = utcnow() + timedelta(minutes=ACCESS_TOKEN_EXPIRE_MINUTES)`; `jwt.encode` is an
external signing step that preserves the payload, so the token is modelled by its
payload. `now` is the issuance time in seconds. -/
def create_access_token (data : List (String × JVal)) (now : Nat) : List (String × JVal) :=
  dset data "exp" (.num (now + ACCESS_TOKEN_EXPIRE_MINUTES * 60))

/-! ## Admin rows and authentication (models.py AdminUser, crud.py lines 39-83) -/

/-- models.AdminUser row. `last_login` and the audit timestamps are wall-clock values;
`last_login` is kept (it is written by the login endpoint), `created_at`/`updated_at`
are not observed by any claim and are omitted. -/
structure AdminRow where
  id : Nat
  email : String
  hashed_password : String
  full_name : String
  role : String
  is_active : Bool
  last_login : Option Nat
deriving DecidableEq, Repr

/-- An HTTPException: status code and detail message. -/
structure HErr where
  status : Nat
  detail : String
deriving DecidableEq, Repr

/-- crud.get_admin_by_email: `SELECT * FROM admin_users WHERE email = :email`, first row. -/
def get_admin_by_email (s : List AdminRow) (email : String) : Option AdminRow :=
  s.find? (fun a => a.email == email)

/-- crud.authenticate_admin. The returned dict drops the `hashed_password` key; the
embedding returns the row itself since no caller reads that field from the result. -/
def authenticate_admin (sha256hex : String → String) (s : List AdminRow)
    (email password : String) : Except HErr AdminRow :=
  match get_admin_by_email s email with
  | none => .error ⟨401, "Incorrect email or password"⟩
  | some admin =>
    if !admin.is_active then .error ⟨401, "Admin account is inactive"⟩
    else if admin.hashed_password == "" then .error ⟨401, "Invalid admin credentials"⟩
    else if verify_password sha256hex password admin.hashed_password then .ok admin
    else .error ⟨401, "Incorrect email or password"⟩

/-- crud.update_admin_last_login: `UPDATE admin_users SET last_login = utcnow() WHERE id = :id`. -/
def update_admin_last_login (s : List AdminRow) (admin_id : Nat) (now : Nat) : List AdminRow :=
  s.map (fun a => if a.id == admin_id then { a with last_login := some now } else a)

/-- admin_api.admin_login: authenticate (propagating any HTTPException unchanged),
record last login, and issue a token whose payload data is `{"sub": admin["email"]}`.
Returns the token payload, the authenticated admin and the updated store. -/
def admin_login (sha256hex : String → String) (s : List AdminRow)
    (email password : String) (now : Nat) :
    Except HErr (List (String × JVal) × AdminRow × List AdminRow) :=
  match authenticate_admin sha256hex s email password with
  | .error e => .error e
  | .ok admin =>
      .ok (create_access_token [("sub", JVal.str admin.email)] now, admin,
           update_admin_last_login s admin.id now)

/-- crud.delete_admin_user: `DELETE FROM admin_users WHERE id = :id`, returning
`rowcount > 0` and the remaining rows. -/
def delete_admin_user_crud (s : List AdminRow) (admin_id : Nat) : Bool × List AdminRow :=
  let s' := s.filter (fun a => !(a.id == admin_id))
  (decide (s'.length < s.length), s')

/-- A plain Python dict value as returned by dependencies.get_current_admin
(`admin = dict(admin_record)`). -/
structure PyDict where
  items : List (String × JVal)
deriving DecidableEq, Repr

/-- Attribute access `d.name` on a plain Python dict. A dict's entries live in its item
mapping, not in its attribute namespace, so looking up a data attribute such as `id`
finds nothing and raises AttributeError, modelled as `none`. -/
def PyDict.attr (_ : PyDict) (_ : String) : Option JVal := none

/-- admin_api.delete_admin_user endpoint: reads `current_admin.id` by attribute access
(an AttributeError on the dict reaches main.global_exception_handler, which answers
HTTP 500 "Internal server error occurred"); on a self-delete answers 400; otherwise
deletes and answers 200, or 404 when no row was removed. Returns ((status, message),
resulting admin table). -/
def delete_admin_user_endpoint (current_admin : PyDict) (admin_id : Nat)
    (s : List AdminRow) : (Nat × String) × List AdminRow :=
  match current_admin.attr "id" with
  | none => ((500, "Internal server error occurred"), s)
  | some (JVal.num i) =>
    if i == admin_id then ((400, "Cannot delete your own account"), s)
    else
      let r := delete_admin_user_crud s admin_id
      if r.1 then ((200, "Admin user deleted successfully"), r.2)
      else ((404, "Admin user not found"), s)
  | some _ => ((500, "Internal server error occurred"), s)

/-! ## Products (models.py CoffeeProduct, crud.py lines 163-166, admin_api.py 133-140,
main.py 338-355) -/

/-- models.CoffeeProduct row (audit timestamps omitted; no claim observes them). -/
structure ProductRow where
  id : Nat
  name : String
  price : ℚ
  image : Option String
  description : Option String
  category : Option String
  rating : ℚ
  brew_time : Option String
  is_available : Bool
  stock : Nat
deriving DecidableEq, Repr

/-- crud.get_products:
`SELECT * FROM coffee_products WHERE is_available = true OFFSET skip LIMIT limit`. -/
def get_products (ps : List ProductRow) (skip limit : Nat) : List ProductRow :=
  ((ps.filter (fun p => p.is_available)).drop skip).take limit

/-- admin_api.admin_read_products: delegates to crud.get_products unchanged. -/
def admin_read_products (ps : List ProductRow) (skip limit : Nat) : List ProductRow :=
  get_products ps skip limit

/-- main.read_products (the public `GET /api/v1/products/` endpoint): crud.get_products,
then an optional in-Python category filter and an optional `available_only` filter. -/
def read_products_endpoint (ps : List ProductRow) (skip limit : Nat)
    (category : Option String) (available_only : Bool) : List ProductRow :=
  let products := get_products ps skip limit
  let products := match category with
    | some c => products.filter (fun p => p.category == some c)
    | none => products
  if available_only then products.filter (fun p => p.is_available) else products

/-! ## Orders (models.py Order, schemas.py, crud.py lines 221-322) -/

/-- schemas.OrderItem, one embedded line item. -/
structure OrderItem where
  product_id : Nat
  product_name : String
  quantity : Nat
  price : ℚ
  sugar_level : Option String
deriving DecidableEq, Repr

/-- models.Order row. `created_date` is the calendar date of the `created_at` server
timestamp (what `DATE(created_at)` yields); the time-of-day part is not observed by any
claim. `updated_at` is wall-clock and omitted. -/
structure OrderRow where
  id : Nat
  order_number : String
  customer_name : String
  phone_number : String
  delivery_address : Option String
  items : List OrderItem
  total_amount : ℚ
  currency : String
  status : String
  khqr_md5 : Option String
  payment_status : String
  payment_method : String
  notes : Option String
  admin_notes : Option String
  created_date : String
deriving DecidableEq, Repr

/-- schemas.OrderCreate (= OrderBase): the customer's create-order request body. -/
structure OrderCreate where
  customer_name : String
  phone_number : String
  delivery_address : Option String
  items : List OrderItem
  total_amount : ℚ
  currency : String
  notes : Option String
deriving DecidableEq, Repr

/-- schemas.OrderUpdate with pydantic `exclude_unset`: `none` means the field was not
supplied and is excluded from the UPDATE. -/
structure OrderUpdate where
  status : Option String
  payment_status : Option String
  admin_notes : Option String
deriving DecidableEq, Repr

/-- crud.get_order_by_number: `SELECT * FROM orders WHERE order_number = :n`, first row
(the subsequent `.get(key, default)` re-defaults are inert, see the header comment). -/
def get_order_by_number (s : List OrderRow) (n : String) : Option OrderRow :=
  s.find? (fun o => o.order_number == n)

/-- crud.get_order_by_id: `SELECT * FROM orders WHERE id = :id`, first row. -/
def get_order_by_id (s : List OrderRow) (order_id : Nat) : Option OrderRow :=
  s.find? (fun o => o.id == order_id)

/-- The order number generated by crud.create_order:
`f"BH{datetime.now().strftime('%Y%m%d')}{uuid.uuid4().hex[:8].upper()}"`, with the date
stamp and the random suffix as parameters. -/
def mkOrderNumber (dateStr suffix : String) : String := "BH" ++ dateStr ++ suffix

/-- crud.create_order: build the row from the request with defaults
status="pending", payment_status="pending", khqr_md5=NULL, admin_notes=NULL, notes
defaulted to "" when falsy (None or ""), payment_method left to its column default
"khqr", and insert it. The `orders.order_number` column carries a UNIQUE index
(models.py line 38), so the insert raises (modelled as `none`) when the generated
number already exists; on success the row is re-fetched by its autoincrement id, which
returns exactly the inserted row. -/
def create_order (s : List OrderRow) (o : OrderCreate) (dateStr suffix today : String) :
    Option (OrderRow × List OrderRow) :=
  let n := mkOrderNumber dateStr suffix
  if s.any (fun r => r.order_number == n) then none
  else
    let row : OrderRow := {
      id := s.length + 1
      order_number := n
      customer_name := o.customer_name
      phone_number := o.phone_number
      delivery_address := o.delivery_address
      items := o.items
      total_amount := o.total_amount
      currency := o.currency
      status := "pending"
      payment_status := "pending"
      khqr_md5 := none
      payment_method := "khqr"
      notes := some (o.notes.getD "")
      admin_notes := none
      created_date := today }
    some (row, s ++ [row])

/-- SQL `UPDATE orders SET ... WHERE order_number = :n`: apply the column updates to
every matching row. -/
def sqlUpdateByNumber (s : List OrderRow) (n : String) (g : OrderRow → OrderRow) :
    List OrderRow :=
  s.map (fun r => if r.order_number == n then g r else r)

/-- SQL `UPDATE orders SET ... WHERE id = :id`. -/
def sqlUpdateById (s : List OrderRow) (oid : Nat) (g : OrderRow → OrderRow) :
    List OrderRow :=
  s.map (fun r => if r.id == oid then g r else r)

/-- The per-row effect of crud.update_order's UPDATE: apply exactly the fields present
in the OrderUpdate (pydantic exclude_unset). -/
def ordUpd (u : OrderUpdate) (r : OrderRow) : OrderRow :=
  { r with
    status := u.status.getD r.status
    payment_status := u.payment_status.getD r.payment_status
    admin_notes := match u.admin_notes with | none => r.admin_notes | some v => some v }

/-- crud.update_order: fetch by id (None when absent), apply the fields present in the
OrderUpdate, re-fetch. -/
def update_order (s : List OrderRow) (order_id : Nat) (u : OrderUpdate) :
    Option (OrderRow × List OrderRow) :=
  match get_order_by_id s order_id with
  | none => none
  | some _ =>
    let s' := sqlUpdateById s order_id (ordUpd u)
    (get_order_by_id s' order_id).map (fun r => (r, s'))

/-- The per-row effect of crud.update_order_payment_status's UPDATE: always set
payment_status, and set khqr_md5 only when the argument is truthy (`if khqr_md5:` —
neither None nor the empty string). -/
def paymentUpd (payment_status : String) (khqr_md5 : Option String) (r : OrderRow) :
    OrderRow :=
  { r with
    payment_status := payment_status
    khqr_md5 := match khqr_md5 with
      | some v => if v == "" then r.khqr_md5 else some v
      | none => r.khqr_md5 }

/-- crud.update_order_payment_status: fetch by number (None when absent), run the
UPDATE, re-fetch by number. -/
def update_order_payment_status (s : List OrderRow) (n : String)
    (payment_status : String) (khqr_md5 : Option String) :
    Option (OrderRow × List OrderRow) :=
  match get_order_by_number s n with
  | none => none
  | some _ =>
    let s' := sqlUpdateByNumber s n (paymentUpd payment_status khqr_md5)
    (get_order_by_number s' n).map (fun r => (r, s'))

/-- The per-row effect of the spec-modelled updateOrderStatus: set the fulfillment
status field. -/
def statusUpd (st : String) (r : OrderRow) : OrderRow := { r with status := st }

/-- Modelled from the spec: `updateOrderStatus(order_number, newStatus) -> Order |
NotFound` (spec section 4.1). The function is invoked as `crud.update_order_status`
from main.py (lines 306 and 778) but is not among the source files under src/; per the
spec it sets the order's fulfillment status and returns the updated row, or NotFound
when no such order exists. -/
def update_order_status (s : List OrderRow) (n : String) (st : String) :
    Option (OrderRow × List OrderRow) :=
  match get_order_by_number s n with
  | none => none
  | some _ =>
    let s' := sqlUpdateByNumber s n (statusUpd st)
    (get_order_by_number s' n).map (fun r => (r, s'))

/-- The order numbers currently in the store. -/
def ordNums (s : List OrderRow) : List String := s.map (fun r => r.order_number)

/-- One call to the create-order operation: request body plus the nondeterministic
externals drawn at call time (date stamp, uuid suffix, creation date). -/
structure CreateCall where
  req : OrderCreate
  dateStr : String
  suffix : String
  today : String
deriving DecidableEq, Repr

/-- A sequence of crud.create_order calls against an evolving store, returning the
final store and the order numbers of the successful creations in order. -/
def runCreates : List CreateCall → List OrderRow → List OrderRow × List String
  | [], s => (s, [])
  | c :: cs, s =>
    match create_order s c.req c.dateStr c.suffix c.today with
    | none => runCreates cs s
    | some (o, s') =>
      let r := runCreates cs s'
      (r.1, o.order_number :: r.2)

/-! ## Background payment simulator and status polling (main.py lines 71-72, 274-311,
715-758) -/

/-- One entry of the in-memory `active_payment_checks` map. The `start_time` and
`last_update` wall-clock fields are not observed by any claim and are omitted. -/
structure CheckEntry where
  status : String
  progress : Nat
deriving DecidableEq, Repr

/-- In-place mutation of the entry at a key
(`active_payment_checks[n]['field'] = ...`). -/
def modCheck : List (String × CheckEntry) → String → (CheckEntry → CheckEntry) →
    List (String × CheckEntry)
  | [], _, _ => []
  | p :: t, n, f => if p.1 == n then (p.1, f p.2) :: t else p :: modCheck t n f

/-- One iteration of the simulator's progress loop (loop variable `i` running over
`range(1, 11)` is `i + 1` here for `i ∈ List.range 10`): set
`progress = i * 10` and, from 70% on, `status = "verifying"`. -/
def simStep (i : Nat) (e : CheckEntry) : CheckEntry :=
  let prog := (i + 1) * 10
  let e' := { e with progress := prog }
  if prog ≥ 70 then { e' with status := "verifying" } else e'

/-- main.check_payment_status_demo: seed the in-memory entry as processing, run the
ten-step progress loop (each step a 1-second sleep plus the progress/verifying
updates), then attempt the store write `update_order_payment_status(n, "paid",
"demo_md5_hash")`. On success mark the entry paid and set the fulfillment status to
"preparing"; on failure (no such order row) mark the entry failed and leave the store
untouched. Returns the resulting store and map. -/
def check_payment_status_demo (s : List OrderRow) (m : List (String × CheckEntry))
    (n : String) : List OrderRow × List (String × CheckEntry) :=
  let m1 := dset m n ⟨"processing", 0⟩
  let m2 := (List.range 10).foldl (fun acc i => modCheck acc n (simStep i)) m1
  match update_order_payment_status s n "paid" (some "demo_md5_hash") with
  | some (_, s') =>
    let m3 := modCheck m2 n (fun e => { e with status := "paid", progress := 100 })
    let s'' := match update_order_status s' n "preparing" with
      | some (_, s2) => s2
      | none => s'
    (s'', m3)
  | none =>
    (s, modCheck m2 n (fun e => { e with status := "failed", progress := 100 }))

/-- main.get_payment_status (`GET /api/v1/khqr/status/{order_number}`): 404 when the
order row is absent; otherwise report the active in-memory check's status when one
exists, else the stored payment_status. The response is modelled as (order_number,
payment_status); the informational transaction_data dict is not observed by any
claim. -/
def get_payment_status (s : List OrderRow) (m : List (String × CheckEntry))
    (n : String) : Except HErr (String × String) :=
  match get_order_by_number s n with
  | none => .error ⟨404, "Order not found"⟩
  | some o =>
    match dget m n with
    | some e => .ok (n, e.status)
    | none => .ok (n, o.payment_status)

/-! ## Dashboard statistics (crud.py lines 384-423, main.py lines 902-971) -/

/-- The dict returned by crud.get_dashboard_stats. -/
structure DashboardStats where
  total_orders : Nat
  total_revenue : ℚ
  total_products : Nat
  pending_orders : Nat
  completed_orders : Nat
  today_orders : Nat
  today_revenue : ℚ
deriving DecidableEq, Repr

/-- crud.get_dashboard_stats: counts and sums over the orders and products tables;
total_revenue is `SUM(total_amount)` over ALL orders (`float(x) if x else 0.0` maps the
NULL of an empty table, and a zero sum, to 0, which plain rational summation already
yields). `today` is today's calendar date. -/
def get_dashboard_stats (orders : List OrderRow) (products : List ProductRow)
    (today : String) : DashboardStats :=
  { total_orders := orders.length
    total_revenue := ((orders.map (fun o => o.total_amount)).sum)
    total_products := products.length
    pending_orders :=
      (orders.filter (fun o => o.status == "pending" || o.status == "preparing")).length
    completed_orders := (orders.filter (fun o => o.status == "completed")).length
    today_orders := (orders.filter (fun o => o.created_date == today)).length
    today_revenue :=
      (((orders.filter (fun o => o.created_date == today)).map
        (fun o => o.total_amount)).sum) }

/-- The total-revenue figure of the main.py admin dashboard endpoint
(`GET /api/v1/admin/dashboard/stats`):
`SELECT COALESCE(SUM(total_amount), 0) FROM orders WHERE payment_status = 'paid'`. -/
def main_total_revenue (orders : List OrderRow) : ℚ :=
  ((orders.filter (fun o => o.payment_status == "paid")).map (fun o => o.total_amount)).sum

/-- Sum of total_amount over the orders whose payment_status is not "paid". -/
def unpaid_total (orders : List OrderRow) : ℚ :=
  ((orders.filter (fun o => !(o.payment_status == "paid"))).map
    (fun o => o.total_amount)).sum

/-! ## Concrete sample data used by counterexamples and witnesses -/

/-- An inactive admin whose stored hash matches password "pw" under the identity
digest function. -/
def adminInactive : AdminRow :=
  { id := 1, email := "a@x.com", hashed_password := "pw" ++ SALT, full_name := "A",
    role := "admin", is_active := false, last_login := none }

/-- The seeded super admin (main.create_sample_data), with a stored hash matching
password "11112222" under the identity digest function. -/
def adminActive : AdminRow :=
  { id := 1, email := "admin@gmail.com", hashed_password := "11112222" ++ SALT,
    full_name := "System Administrator", role := "super_admin", is_active := true,
    last_login := none }

/-- The plain dict that dependencies.get_current_admin yields for the seeded super
admin (hashed_password popped fields aside, only the keys read by the handlers). -/
def superAdminDict : PyDict :=
  ⟨[("id", JVal.num 1), ("email", JVal.str "admin@gmail.com"),
    ("role", JVal.str "super_admin")]⟩

/-- A catalog row that is not available. -/
def unavailableProduct : ProductRow :=
  { id := 1, name := "Mocha", price := 4, image := none, description := none,
    category := some "Hot Coffee", rating := 4, brew_time := none,
    is_available := false, stock := 10 }

/-- A stored order that is still pending payment. -/
def pendingOrder : OrderRow :=
  { id := 1, order_number := "BH20250101AB12CD34", customer_name := "John Smith",
    phone_number := "012345678", delivery_address := none,
    items := [⟨1, "Mondulkiri Arabica", 2, 4, some "regular"⟩],
    total_amount := 9, currency := "USD", status := "pending", khqr_md5 := none,
    payment_status := "pending", payment_method := "khqr", notes := some "",
    admin_notes := none, created_date := "2025-01-01" }

/-- A sample create-order request body. -/
def demoCreate : OrderCreate :=
  { customer_name := "John Smith", phone_number := "012345678",
    delivery_address := none,
    items := [⟨1, "Mondulkiri Arabica", 2, 4, some "regular"⟩],
    total_amount := 9, currency := "USD", notes := none }

/-! ## Finiteness of fixed-length strings (for the digest pigeonhole argument) -/

instance : Finite Char := by
  apply Finite.of_injective (fun c : Char => c.val.val)
  intro a b h
  exact Char.ext (UInt32.val_injective h)

/-- Strings of length exactly 64, the possible outputs of a hex digest. -/
def Str64 : Type := {s : String // s.length = 64}

instance : Finite Str64 := by
  apply Finite.of_injective (fun (s : Str64) (i : Fin 64) => s.1.data.getD i.1 'a')
  rintro ⟨s, hs⟩ ⟨t, ht⟩ h
  have hls : s.data.length = 64 := hs
  have hlt : t.data.length = 64 := ht
  have hd : s.data = t.data := by
    apply List.ext_getElem (by omega)
    intro i h1 h2
    have hh := congrFun h ⟨i, by omega⟩
    simp only [List.getD_eq_getElem?_getD] at hh
    rw [List.getElem?_eq_getElem h1, List.getElem?_eq_getElem h2] at hh
    simpa using hh
  exact Subtype.ext (congrArg String.mk hd)

/-! ## Helper lemmas -/

theorem dget_dset_self {α : Type} (m : List (String × α)) (k : String) (v : α) :
    dget (dset m k v) k = some v := by
  induction m with
  | nil => simp [dget, dset]
  | cons p t ih =>
    by_cases h : p.1 = k
    · simp [dget, dset, h]
    · simp only [dset, dget, beq_iff_eq, if_neg h]
      exact ih

theorem dget_modCheck_self (m : List (String × CheckEntry)) (n : String)
    (f : CheckEntry → CheckEntry) :
    dget (modCheck m n f) n = (dget m n).map f := by
  induction m with
  | nil => simp [dget, modCheck]
  | cons p t ih =>
    by_cases h : p.1 = n
    · simp [dget, modCheck, h]
    · simp only [modCheck, dget, beq_iff_eq, if_neg h]
      exact ih

theorem dget_foldl_modCheck (n : String) (l : List Nat)
    (m : List (String × CheckEntry)) :
    dget (l.foldl (fun acc i => modCheck acc n (simStep i)) m) n
      = (dget m n).map (fun e => l.foldl (fun e i => simStep i e) e) := by
  induction l generalizing m with
  | nil => simp
  | cons i l ih =>
    simp only [List.foldl_cons]
    rw [ih, dget_modCheck_self]
    cases dget m n <;> simp

theorem gobn_sqlUpdateByNumber (s : List OrderRow) (n : String)
    (g : OrderRow → OrderRow) (hg : ∀ r, (g r).order_number = r.order_number) :
    get_order_by_number (sqlUpdateByNumber s n g) n
      = (get_order_by_number s n).map g := by
  induction s with
  | nil => simp [get_order_by_number, sqlUpdateByNumber]
  | cons r t ih =>
    simp only [sqlUpdateByNumber, List.map_cons] at *
    by_cases h : r.order_number = n
    · rw [if_pos (by simpa using h)]
      unfold get_order_by_number
      rw [List.find?_cons_of_pos _ (by simpa [hg r] using h),
          List.find?_cons_of_pos _ (by simpa using h)]
      simp
    · rw [if_neg (by simpa using h)]
      unfold get_order_by_number
      rw [List.find?_cons_of_neg _ (by simpa using h),
          List.find?_cons_of_neg _ (by simpa using h)]
      exact ih

theorem ordNums_sqlUpdateByNumber (s : List OrderRow) (n : String)
    (g : OrderRow → OrderRow) (hg : ∀ r, (g r).order_number = r.order_number) :
    ordNums (sqlUpdateByNumber s n g) = ordNums s := by
  simp only [ordNums, sqlUpdateByNumber, List.map_map]
  apply List.map_congr_left
  intro r _
  by_cases h : r.order_number = n <;> simp [h, hg r]

theorem ordNums_sqlUpdateById (s : List OrderRow) (oid : Nat)
    (g : OrderRow → OrderRow) (hg : ∀ r, (g r).order_number = r.order_number) :
    ordNums (sqlUpdateById s oid g) = ordNums s := by
  simp only [ordNums, sqlUpdateById, List.map_map]
  apply List.map_congr_left
  intro r _
  by_cases h : r.id = oid <;> simp [h, hg r]

theorem gobn_append_fresh (s : List OrderRow) (row : OrderRow) (n : String)
    (hfresh : s.any (fun r => r.order_number == n) = false)
    (hrow : row.order_number = n) :
    get_order_by_number (s ++ [row]) n = some row := by
  have hnone : s.find? (fun o => o.order_number == n) = none := by
    rw [List.find?_eq_none]
    intro x hx
    have := (List.any_eq_false).mp hfresh x hx
    simpa using this
  simp [get_order_by_number, List.find?_append, hnone, List.find?, hrow]

theorem gobi_sqlUpdateById (s : List OrderRow) (oid : Nat)
    (g : OrderRow → OrderRow) (hg : ∀ r, (g r).id = r.id) :
    get_order_by_id (sqlUpdateById s oid g) oid
      = (get_order_by_id s oid).map g := by
  induction s with
  | nil => simp [get_order_by_id, sqlUpdateById]
  | cons r t ih =>
    simp only [sqlUpdateById, List.map_cons] at *
    by_cases h : r.id = oid
    · rw [if_pos (by simpa using h)]
      unfold get_order_by_id
      rw [List.find?_cons_of_pos _ (by simpa [hg r] using h),
          List.find?_cons_of_pos _ (by simpa using h)]
      simp
    · rw [if_neg (by simpa using h)]
      unfold get_order_by_id
      rw [List.find?_cons_of_neg _ (by simpa using h),
          List.find?_cons_of_neg _ (by simpa using h)]
      exact ih

theorem update_payment_status_eq (s : List OrderRow) (n pst : String)
    (md5 : Option String) (o : OrderRow) (ho : get_order_by_number s n = some o) :
    update_order_payment_status s n pst md5
      = some (paymentUpd pst md5 o, sqlUpdateByNumber s n (paymentUpd pst md5)) := by
  simp only [update_order_payment_status, ho,
    gobn_sqlUpdateByNumber s n (paymentUpd pst md5) (fun r => rfl), Option.map_some']

theorem update_order_status_eq (s : List OrderRow) (n st : String) (o : OrderRow)
    (ho : get_order_by_number s n = some o) :
    update_order_status s n st
      = some (statusUpd st o, sqlUpdateByNumber s n (statusUpd st)) := by
  simp only [update_order_status, ho,
    gobn_sqlUpdateByNumber s n (statusUpd st) (fun r => rfl), Option.map_some']

theorem update_order_eq (s : List OrderRow) (oid : Nat) (u : OrderUpdate)
    (o : OrderRow) (ho : get_order_by_id s oid = some o) :
    update_order s oid u
      = some (ordUpd u o, sqlUpdateById s oid (ordUpd u)) := by
  simp only [update_order, ho,
    gobi_sqlUpdateById s oid (ordUpd u) (fun r => rfl), Option.map_some']

theorem create_order_facts (s : List OrderRow) (o : OrderCreate) (d su t : String)
    (r : OrderRow) (s' : List OrderRow) (hc : create_order s o d su t = some (r, s')) :
    r.order_number = "BH" ++ d ++ su ∧ r.order_number ∉ ordNums s ∧
    ordNums s' = ordNums s ++ [r.order_number] ∧ r.status = "pending" ∧
    r.payment_status = "pending" ∧ r.items = o.items ∧
    get_order_by_number s' r.order_number = some r := by
  unfold create_order at hc
  by_cases hany : s.any (fun x => x.order_number == mkOrderNumber d su) = true
  · rw [if_pos hany] at hc; cases hc
  · rw [if_neg hany] at hc
    have hf : s.any (fun x => x.order_number == mkOrderNumber d su) = false := by
      simpa using hany
    have hnot : mkOrderNumber d su ∉ ordNums s := by
      intro hmem
      obtain ⟨x, hx, hxn⟩ := List.mem_map.mp hmem
      have := List.any_eq_false.mp hf x hx
      simp [hxn] at this
    have hpair := Option.some.inj hc
    injection hpair with h1 h2
    subst h1
    subst h2
    refine ⟨rfl, hnot, by simp [ordNums], rfl, rfl, rfl, ?_⟩
    exact gobn_append_fresh s _ (mkOrderNumber d su) hf rfl

theorem runCreates_not_mem :
    ∀ (cs : List CreateCall) (s : List OrderRow) (x : String),
      x ∈ ordNums s → x ∉ (runCreates cs s).2 := by
  intro cs
  induction cs with
  | nil => intro s x _; simp [runCreates]
  | cons c cs ih =>
    intro s x hx
    cases hc : create_order s c.req c.dateStr c.suffix c.today with
    | none =>
      simp only [runCreates, hc]
      exact ih s x hx
    | some p =>
      obtain ⟨o, s'⟩ := p
      have hf := create_order_facts s c.req c.dateStr c.suffix c.today o s' hc
      simp only [runCreates, hc]
      intro hmem
      rcases List.mem_cons.mp hmem with h | h
      · exact hf.2.1 (h ▸ hx)
      · exact ih s' x (by rw [hf.2.2.1]; exact List.mem_append_left _ hx) h

theorem runCreates_nodup :
    ∀ (cs : List CreateCall) (s : List OrderRow), ((runCreates cs s).2).Nodup := by
  intro cs
  induction cs with
  | nil => intro s; simp [runCreates]
  | cons c cs ih =>
    intro s
    cases hc : create_order s c.req c.dateStr c.suffix c.today with
    | none =>
      simp only [runCreates, hc]
      exact ih s
    | some p =>
      obtain ⟨o, s'⟩ := p
      have hf := create_order_facts s c.req c.dateStr c.suffix c.today o s' hc
      simp only [runCreates, hc, List.nodup_cons]
      refine ⟨?_, ih s'⟩
      exact runCreates_not_mem cs s' o.order_number
        (by rw [hf.2.2.1]; exact List.mem_append_right _ (by simp))

theorem sum_split_paid (l : List OrderRow) :
    (l.map (fun o => o.total_amount)).sum
      = ((l.filter (fun o => o.payment_status == "paid")).map
          (fun o => o.total_amount)).sum
        + ((l.filter (fun o => !(o.payment_status == "paid"))).map
          (fun o => o.total_amount)).sum := by
  induction l with
  | nil => simp
  | cons o t ih =>
    by_cases h : o.payment_status = "paid"
    · simp [h, ih]; ring
    · simp [List.filter_cons, h, ih]; ring

theorem exists_salted_collision (h : String → String) (hh : Sha256Like h) :
    ∃ p q : String, p ≠ q ∧ h (p ++ SALT) = h (q ++ SALT) := by
  let padA : ℕ → String := fun k => String.mk (List.replicate k 'a')
  let g : ℕ → Str64 := fun k => ⟨h (padA k ++ SALT), hh _⟩
  obtain ⟨x, y, hxy, hg⟩ := Finite.exists_ne_map_eq_of_infinite g
  refine ⟨padA x, padA y, ?_, ?_⟩
  · intro hpq
    apply hxy
    have := congrArg (fun s : String => s.data.length) hpq
    simpa [padA] using this
  · exact congrArg Subtype.val hg

/-! ## Claim C8: password hashing round-trip -/

/-- C8 counterexample: the claim "verifying any other password always fails" cannot
hold of a digest function that, like SHA-256 hexdigest, maps every input to a
64-character string: under the stand-in digest, the distinct passwords "a" and "b"
collide and verification of "b" against the hash of "a" succeeds. -/
theorem password_collision_counterexample :
    Sha256Like hashStub ∧ ("a" : String) ≠ "b" ∧
    verify_password hashStub "b" (get_password_hash hashStub "a") = true :=
  ⟨fun _ => rfl, by decide, by decide⟩

/-- C8 amended: verifying the same password against its own hash always succeeds;
verifying q against the hash of p succeeds exactly when the salted digests coincide
(so distinct passwords fail exactly when their salted digests differ); and for every
digest function with 64-character outputs some distinct pair of passwords does
collide, so "always fails" is unattainable. -/
theorem password_verify_spec :
    (∀ (h : String → String) (p : String),
      verify_password h p (get_password_hash h p) = true)
    ∧ (∀ (h : String → String) (p q : String),
      (verify_password h q (get_password_hash h p) = true ↔
        h (q ++ SALT) = h (p ++ SALT)))
    ∧ (∀ h : String → String, Sha256Like h →
      ∃ p q : String, p ≠ q ∧ verify_password h q (get_password_hash h p) = true) := by
  refine ⟨?_, ?_, ?_⟩
  · intro h p
    simp [verify_password, get_password_hash]
  · intro h p q
    simp [verify_password, get_password_hash]
  · intro h hh
    obtain ⟨p, q, hpq, hcol⟩ := exists_salted_collision h hh
    exact ⟨p, q, hpq, by simp [verify_password, get_password_hash, hcol]⟩

/-- C8 witness: the collision clause of `password_verify_spec` applied to the concrete
64-character-output digest `hashStub`. -/
theorem password_verify_spec_witness :
    ∃ p q : String, p ≠ q ∧
      verify_password hashStub q (get_password_hash hashStub p) = true :=
  password_verify_spec.2.2 hashStub (fun _ => rfl)

/-! ## Claim C7: token payload -/

/-- C7 counterexample: a successful login of the seeded super admin issues a token
whose payload has keys "sub" and "exp" only — there is no "role" entry, contradicting
"the token payload carries the subject and the admin's role". -/
theorem token_payload_no_role_counterexample :
    (admin_login (fun s => s) [adminActive] "admin@gmail.com" "11112222" 0).toOption.map
        (fun r => r.1)
      = some [("sub", JVal.str "admin@gmail.com"), ("exp", JVal.num 86400)] ∧
    dget [("sub", JVal.str "admin@gmail.com"), ("exp", JVal.num 86400)] "role"
      = none := by
  exact ⟨rfl, rfl⟩

/-- C7 amended: for every successful login the issued token's payload carries the
subject (the admin's email) and an expiry exactly 24 hours (86400 seconds) from
issuance, and carries no role entry (the role travels in the response body's admin
object instead). -/
theorem token_payload_spec :
    ∀ (h : String → String) (s : List AdminRow) (email password : String) (now : Nat)
      (tok : List (String × JVal)) (admin : AdminRow) (s2 : List AdminRow),
      admin_login h s email password now = .ok (tok, admin, s2) →
      dget tok "sub" = some (.str admin.email) ∧
      dget tok "exp" = some (.num (now + 86400)) ∧
      dget tok "role" = none := by
  intro h s email password now tok admin s2 hlog
  unfold admin_login at hlog
  cases hau : authenticate_admin h s email password with
  | error e => rw [hau] at hlog; cases hlog
  | ok a =>
    rw [hau] at hlog
    injection hlog with h1
    rw [Prod.ext_iff] at h1
    obtain ⟨h2, h3⟩ := h1
    rw [Prod.ext_iff] at h3
    obtain ⟨h4, h5⟩ := h3
    subst h2
    subst h4
    exact ⟨rfl, rfl, rfl⟩

/-- C7 witness: `token_payload_spec` at the seeded super admin's concrete login. -/
theorem token_payload_spec_witness :
    dget [("sub", JVal.str "admin@gmail.com"), ("exp", JVal.num 86400)] "sub"
        = some (.str adminActive.email) ∧
    dget [("sub", JVal.str "admin@gmail.com"), ("exp", JVal.num 86400)] "exp"
        = some (.num (0 + 86400)) ∧
    dget [("sub", JVal.str "admin@gmail.com"), ("exp", JVal.num 86400)] "role"
        = none :=
  token_payload_spec (fun s => s) [adminActive] "admin@gmail.com" "11112222" 0
    [("sub", JVal.str "admin@gmail.com"), ("exp", JVal.num 86400)] adminActive
    [{ adminActive with last_login := some 0 }] rfl

/-! ## Claim C4: authentication failure modes -/

/-- C4 counterexample: an existing admin whose stored hash matches the supplied
password but whose account is inactive is rejected by crud.authenticate_admin — and
hence by the login endpoint — with HTTP 401 "Admin account is inactive", not with the
claimed HTTP 403. -/
theorem login_inactive_401_counterexample :
    verify_password (fun s => s) "pw" adminInactive.hashed_password = true ∧
    adminInactive.is_active = false ∧
    authenticate_admin (fun s => s) [adminInactive] "a@x.com" "pw"
      = .error ⟨401, "Admin account is inactive"⟩ ∧
    admin_login (fun s => s) [adminInactive] "a@x.com" "pw" 0
      = .error ⟨401, "Admin account is inactive"⟩ ∧
    (401 : Nat) ≠ 403 :=
  ⟨by decide, rfl, rfl, rfl, by decide⟩

/-- C4 amended: authentication fails with HTTP 401 "Incorrect email or password" when
no admin has the given email and when the hash does not match an active account, and
with HTTP 401 (not 403) "Admin account is inactive" — a distinct detail but the same
status code — when the account exists but is inactive, the inactive check preceding
password verification; the login endpoint propagates whichever error unchanged. -/
theorem authenticate_admin_error_spec :
    ∀ (h : String → String) (s : List AdminRow) (email password : String) (now : Nat),
      (get_admin_by_email s email = none →
        authenticate_admin h s email password
          = .error ⟨401, "Incorrect email or password"⟩)
      ∧ (∀ a, get_admin_by_email s email = some a → a.is_active = false →
        authenticate_admin h s email password
          = .error ⟨401, "Admin account is inactive"⟩)
      ∧ (∀ a, get_admin_by_email s email = some a → a.is_active = true →
        a.hashed_password ≠ "" →
        verify_password h password a.hashed_password = false →
        authenticate_admin h s email password
          = .error ⟨401, "Incorrect email or password"⟩)
      ∧ (∀ e, authenticate_admin h s email password = .error e →
        admin_login h s email password now = .error e) := by
  intro h s email password now
  refine ⟨?_, ?_, ?_, ?_⟩
  · intro hnone
    simp [authenticate_admin, hnone]
  · intro a ha hia
    simp [authenticate_admin, ha, hia]
  · intro a ha hia hhp hv
    simp [authenticate_admin, ha, hia, hhp, hv]
  · intro e he
    simp [admin_login, he]

/-- C4 witness: the inactive branch of `authenticate_admin_error_spec` at the concrete
inactive admin. -/
theorem authenticate_admin_error_spec_witness :
    authenticate_admin (fun s => s) [adminInactive] "a@x.com" "pw"
      = .error ⟨401, "Admin account is inactive"⟩ :=
  (authenticate_admin_error_spec (fun s => s) [adminInactive] "a@x.com" "pw" 0).2.1
    adminInactive rfl rfl

/-! ## Claim C5: product listing filters -/

/-- C5 counterexample: with a store holding one unavailable product, the admin listing
(which delegates to the same filtered crud.get_products query) is empty, so the
unavailable product is NOT present in the admin listing, contradicting "present in the
admin listing". -/
theorem admin_listing_filtered_counterexample :
    unavailableProduct.is_available = false ∧
    admin_read_products [unavailableProduct] 0 100 = [] ∧
    unavailableProduct ∉ admin_read_products [unavailableProduct] 0 100 ∧
    read_products_endpoint [unavailableProduct] 0 100 none false = [] := by
  refine ⟨rfl, rfl, ?_, rfl⟩
  simp [admin_read_products, get_products, unavailableProduct]

/-- C5 amended: the public product listing and the admin product listing run the very
same `is_available = true` query, so they coincide, and a product with
is_available = false is absent from both. -/
theorem product_listing_filter_spec :
    ∀ (ps : List ProductRow) (skip limit : Nat),
      admin_read_products ps skip limit = read_products_endpoint ps skip limit none false
      ∧ (∀ p, p ∈ ps → p.is_available = false →
          p ∉ admin_read_products ps skip limit ∧
          p ∉ read_products_endpoint ps skip limit none false) := by
  intro ps skip limit
  have heq : admin_read_products ps skip limit
      = read_products_endpoint ps skip limit none false := rfl
  refine ⟨heq, ?_⟩
  intro p _ hpa
  have hnot : p ∉ admin_read_products ps skip limit := by
    intro hmem
    have h1 : p ∈ (ps.filter (fun q => q.is_available)).drop skip :=
      List.mem_of_mem_take hmem
    have h2 : p ∈ ps.filter (fun q => q.is_available) := List.mem_of_mem_drop h1
    have h3 := (List.mem_filter.mp h2).2
    rw [hpa] at h3
    cases h3
  exact ⟨hnot, heq ▸ hnot⟩

/-- C5 witness: `product_listing_filter_spec` at the concrete one-product store. -/
theorem product_listing_filter_spec_witness :
    unavailableProduct ∉ admin_read_products [unavailableProduct] 0 100 ∧
    unavailableProduct ∉ read_products_endpoint [unavailableProduct] 0 100 none false :=
  (product_listing_filter_spec [unavailableProduct] 0 100).2 unavailableProduct
    (by simp) rfl

/-! ## Claim C6: deleting one's own admin account -/

/-- C6 evaluation at the failing input: when the seeded super admin (id 1) requests
deletion of admin id 1, the endpoint answers HTTP 500 "Internal server error occurred"
— not a 4xx client error — because `current_admin.id` is attribute access on the plain
dict returned by dependencies.get_current_admin and raises AttributeError before the
self-delete guard can fire; the admin row itself is left in the store unchanged. -/
theorem delete_self_admin_eval :
    delete_admin_user_endpoint superAdminDict 1 [adminActive]
      = ((500, "Internal server error occurred"), [adminActive]) ∧
    adminActive ∈ (delete_admin_user_endpoint superAdminDict 1 [adminActive]).2 ∧
    ¬ ((delete_admin_user_endpoint superAdminDict 1 [adminActive]).1.1 < 500) := by
  exact ⟨rfl, by decide, by decide⟩

/-! ## Claim C9: the two dashboard revenue computations -/

/-- C9 counterexample: on a store with a single pending (unpaid) order of amount 9,
crud.get_dashboard_stats reports total_revenue 9 (it sums over all orders) while the
main.py admin dashboard endpoint reports 0 (it sums over paid orders only) — the two
implementations are not equivalent. -/
theorem dashboard_revenue_counterexample :
    (get_dashboard_stats [pendingOrder] [] "2025-01-01").total_revenue = 9 ∧
    main_total_revenue [pendingOrder] = 0 ∧
    (get_dashboard_stats [pendingOrder] [] "2025-01-01").total_revenue ≠
      main_total_revenue [pendingOrder] := by
  refine ⟨?_, ?_, ?_⟩ <;> simp [get_dashboard_stats, main_total_revenue, pendingOrder]

/-- C9 amended: the domain-layer total_revenue always exceeds the endpoint's by
exactly the summed total_amount of the non-paid orders, so the two agree precisely
when that unpaid sum is zero (in particular whenever every order is paid). -/
theorem dashboard_revenue_relation :
    ∀ (orders : List OrderRow) (products : List ProductRow) (today : String),
      (get_dashboard_stats orders products today).total_revenue
        = main_total_revenue orders + unpaid_total orders
      ∧ ((get_dashboard_stats orders products today).total_revenue
          = main_total_revenue orders ↔ unpaid_total orders = 0) := by
  intro orders products today
  have h1 : (get_dashboard_stats orders products today).total_revenue
      = main_total_revenue orders + unpaid_total orders := by
    simp only [get_dashboard_stats, main_total_revenue, unpaid_total]
    exact sum_split_paid orders
  refine ⟨h1, ?_⟩
  rw [h1]
  exact add_right_eq_self

/-! ## Claim C2: create order then read it back -/

/-- C2: crud.create_order persists the request with status "pending" and
payment_status "pending", the request's items embedded unchanged, and a freshly
generated order number of the expected shape, and an immediate
crud.get_order_by_number with that number returns exactly the persisted pending row. -/
theorem create_order_then_get_pending :
    ∀ (s : List OrderRow) (o : OrderCreate) (d su t : String) (r : OrderRow)
      (s' : List OrderRow),
      create_order s o d su t = some (r, s') →
      r.status = "pending" ∧ r.payment_status = "pending" ∧ r.items = o.items ∧
      r.order_number = mkOrderNumber d su ∧ r.order_number ∉ ordNums s ∧
      get_order_by_number s' r.order_number = some r := by
  intro s o d su t r s' hc
  have hf := create_order_facts s o d su t r s' hc
  exact ⟨hf.2.2.2.1, hf.2.2.2.2.1, hf.2.2.2.2.2.1, hf.1, hf.2.1, hf.2.2.2.2.2.2⟩

/-- C2 witness: `create_order_then_get_pending` at a concrete creation against the
empty store. -/
theorem create_order_then_get_pending_witness :
    pendingOrder.status = "pending" ∧ pendingOrder.payment_status = "pending" ∧
    pendingOrder.items = demoCreate.items ∧
    pendingOrder.order_number = mkOrderNumber "20250101" "AB12CD34" ∧
    pendingOrder.order_number ∉ ordNums [] ∧
    get_order_by_number [pendingOrder] pendingOrder.order_number = some pendingOrder :=
  create_order_then_get_pending [] demoCreate "20250101" "AB12CD34" "2025-01-01"
    pendingOrder [pendingOrder] rfl

/-! ## Claim C10: frame of update_order_payment_status -/

/-- C10: for an existing order, crud.update_order_payment_status changes only
payment_status and — exactly when a non-empty reference is supplied — khqr_md5; a
missing (None) or empty reference leaves khqr_md5 at its previous value, a stored
reference can never be cleared through this operation, every other field of the row is
unchanged, and rows with a different order number are untouched. -/
theorem update_payment_status_frame :
    ∀ (s : List OrderRow) (n pst : String) (md5 : Option String) (o : OrderRow),
      get_order_by_number s n = some o →
      ∃ r s', update_order_payment_status s n pst md5 = some (r, s') ∧
        r.payment_status = pst ∧
        (∀ v, md5 = some v → v ≠ "" → r.khqr_md5 = some v) ∧
        (md5 = none → r.khqr_md5 = o.khqr_md5) ∧
        (md5 = some "" → r.khqr_md5 = o.khqr_md5) ∧
        (o.khqr_md5 ≠ none → r.khqr_md5 ≠ none) ∧
        r.order_number = o.order_number ∧ r.customer_name = o.customer_name ∧
        r.phone_number = o.phone_number ∧ r.delivery_address = o.delivery_address ∧
        r.items = o.items ∧ r.total_amount = o.total_amount ∧
        r.currency = o.currency ∧ r.status = o.status ∧
        r.payment_method = o.payment_method ∧ r.notes = o.notes ∧
        r.admin_notes = o.admin_notes ∧ r.created_date = o.created_date ∧
        (∀ x ∈ s, x.order_number ≠ n → x ∈ s') := by
  intro s n pst md5 o ho
  refine ⟨paymentUpd pst md5 o, sqlUpdateByNumber s n (paymentUpd pst md5),
    update_payment_status_eq s n pst md5 o ho, rfl, ?_, ?_, ?_, ?_, rfl, rfl, rfl,
    rfl, rfl, rfl, rfl, rfl, rfl, rfl, rfl, rfl, ?_⟩
  · intro v hv hvne
    subst hv
    simp [paymentUpd, hvne]
  · intro hnone
    subst hnone
    rfl
  · intro hempty
    subst hempty
    simp [paymentUpd]
  · intro hne
    cases md5 with
    | none => simpa [paymentUpd] using hne
    | some v =>
      by_cases hv : v = ""
      · subst hv; simpa [paymentUpd] using hne
      · simp [paymentUpd, hv]
  · intro x hx hxn
    have hfix : (fun r => if r.order_number == n then paymentUpd pst md5 r else r) x
        = x := by simp [hxn]
    exact hfix ▸ List.mem_map_of_mem _ hx

/-- C10 witness: `update_payment_status_frame` marking the concrete pending order paid
with the demo reference. -/
theorem update_payment_status_frame_witness :
    ∃ r s', update_order_payment_status [pendingOrder] "BH20250101AB12CD34" "paid"
        (some "demo_md5_hash") = some (r, s') ∧
      r.payment_status = "paid" ∧
      (∀ v, some "demo_md5_hash" = some v → v ≠ "" → r.khqr_md5 = some v) ∧
      (some "demo_md5_hash" = none → r.khqr_md5 = pendingOrder.khqr_md5) ∧
      (some "demo_md5_hash" = some "" → r.khqr_md5 = pendingOrder.khqr_md5) ∧
      (pendingOrder.khqr_md5 ≠ none → r.khqr_md5 ≠ none) ∧
      r.order_number = pendingOrder.order_number ∧
      r.customer_name = pendingOrder.customer_name ∧
      r.phone_number = pendingOrder.phone_number ∧
      r.delivery_address = pendingOrder.delivery_address ∧
      r.items = pendingOrder.items ∧ r.total_amount = pendingOrder.total_amount ∧
      r.currency = pendingOrder.currency ∧ r.status = pendingOrder.status ∧
      r.payment_method = pendingOrder.payment_method ∧
      r.notes = pendingOrder.notes ∧ r.admin_notes = pendingOrder.admin_notes ∧
      r.created_date = pendingOrder.created_date ∧
      (∀ x ∈ [pendingOrder], x.order_number ≠ "BH20250101AB12CD34" → x ∈ s') :=
  update_payment_status_frame [pendingOrder] "BH20250101AB12CD34" "paid"
    (some "demo_md5_hash") pendingOrder rfl

/-! ## Claim C3: order number uniqueness, format, immutability -/

/-- C3: every sequence of successful crud.create_order calls yields pairwise distinct
order numbers (the UNIQUE index on the column rejects clashes, so each persisted
number is fresh); every generated number is prefix "BH" + date stamp + random suffix;
and update_order, update_order_status and update_order_payment_status leave the
store's order numbers unchanged. -/
theorem order_number_unique_format_immutable :
    (∀ (cs : List CreateCall) (s : List OrderRow), ((runCreates cs s).2).Nodup)
    ∧ (∀ (s : List OrderRow) (o : OrderCreate) (d su t : String) (r : OrderRow)
        (s' : List OrderRow), create_order s o d su t = some (r, s') →
        r.order_number = "BH" ++ d ++ su ∧ r.order_number ∉ ordNums s)
    ∧ (∀ (s : List OrderRow) (oid : Nat) (u : OrderUpdate) (r : OrderRow)
        (s' : List OrderRow), update_order s oid u = some (r, s') →
        ordNums s' = ordNums s)
    ∧ (∀ (s : List OrderRow) (n st : String) (r : OrderRow) (s' : List OrderRow),
        update_order_status s n st = some (r, s') → ordNums s' = ordNums s)
    ∧ (∀ (s : List OrderRow) (n pst : String) (md5 : Option String) (r : OrderRow)
        (s' : List OrderRow), update_order_payment_status s n pst md5 = some (r, s') →
        ordNums s' = ordNums s) := by
  refine ⟨runCreates_nodup, ?_, ?_, ?_, ?_⟩
  · intro s o d su t r s' hc
    have hf := create_order_facts s o d su t r s' hc
    exact ⟨hf.1, hf.2.1⟩
  · intro s oid u r s' h
    cases ho : get_order_by_id s oid with
    | none => simp [update_order, ho] at h
    | some o =>
      rw [update_order_eq s oid u o ho] at h
      injection h with hp
      injection hp with h1 h2
      subst h2
      exact ordNums_sqlUpdateById s oid _ (fun x => rfl)
  · intro s n st r s' h
    cases ho : get_order_by_number s n with
    | none => simp [update_order_status, ho] at h
    | some o =>
      rw [update_order_status_eq s n st o ho] at h
      injection h with hp
      injection hp with h1 h2
      subst h2
      exact ordNums_sqlUpdateByNumber s n _ (fun x => rfl)
  · intro s n pst md5 r s' h
    cases ho : get_order_by_number s n with
    | none => simp [update_order_payment_status, ho] at h
    | some o =>
      rw [update_payment_status_eq s n pst md5 o ho] at h
      injection h with hp
      injection hp with h1 h2
      subst h2
      exact ordNums_sqlUpdateByNumber s n _ (fun x => rfl)

/-- C3 witness: the uniqueness clause on a concrete two-creation run and the format
and immutability clauses at concrete stores. -/
theorem order_number_unique_format_immutable_witness :
    ((runCreates [⟨demoCreate, "20250101", "AB12CD34", "2025-01-01"⟩,
        ⟨demoCreate, "20250101", "EF56AB78", "2025-01-01"⟩] []).2).Nodup ∧
    (pendingOrder.order_number = "BH" ++ "20250101" ++ "AB12CD34" ∧
      pendingOrder.order_number ∉ ordNums []) ∧
    ordNums [{ pendingOrder with admin_notes := some "checked" }]
      = ordNums [pendingOrder] ∧
    ordNums [{ pendingOrder with status := "preparing" }] = ordNums [pendingOrder] ∧
    ordNums [{ pendingOrder with payment_status := "paid", khqr_md5 := some "demo_md5_hash" }] = ordNums [pendingOrder] :=
  ⟨order_number_unique_format_immutable.1 _ [],
   order_number_unique_format_immutable.2.1 [] demoCreate "20250101" "AB12CD34"
     "2025-01-01" pendingOrder [pendingOrder] rfl,
   order_number_unique_format_immutable.2.2.1 [pendingOrder] 1 ⟨none, none, some "checked"⟩
     { pendingOrder with admin_notes := some "checked" }
     [{ pendingOrder with admin_notes := some "checked" }] rfl,
   order_number_unique_format_immutable.2.2.2.1 [pendingOrder] "BH20250101AB12CD34"
     "preparing" { pendingOrder with status := "preparing" }
     [{ pendingOrder with status := "preparing" }] rfl,
   order_number_unique_format_immutable.2.2.2.2 [pendingOrder] "BH20250101AB12CD34"
     "paid" (some "demo_md5_hash")
     { pendingOrder with payment_status := "paid", khqr_md5 := some "demo_md5_hash" }
     [{ pendingOrder with payment_status := "paid", khqr_md5 := some "demo_md5_hash" }] rfl⟩

/-! ## Claim C1: the background payment simulator -/

/-- C1: running the background payment simulator to completion for an order number
whose row exists makes the store write succeed: the row's payment_status becomes
"paid" with the demo payment reference stored, the in-memory active-payment-checks
entry ends at status "paid" (progress 100), and polling the payment-status endpoint
afterwards answers payment_status "paid"; when the row does not exist the store write
fails, the in-memory entry ends at status "failed" and the store is left unchanged. -/
theorem payment_simulator_spec :
    ∀ (s : List OrderRow) (m : List (String × CheckEntry)) (n : String),
      ((∃ o, get_order_by_number s n = some o) →
        (∃ r, get_order_by_number (check_payment_status_demo s m n).1 n = some r ∧
          r.payment_status = "paid" ∧ r.khqr_md5 = some "demo_md5_hash") ∧
        dget (check_payment_status_demo s m n).2 n = some ⟨"paid", 100⟩ ∧
        get_payment_status (check_payment_status_demo s m n).1
          (check_payment_status_demo s m n).2 n = .ok (n, "paid"))
      ∧ (get_order_by_number s n = none →
        (check_payment_status_demo s m n).1 = s ∧
        dget (check_payment_status_demo s m n).2 n = some ⟨"failed", 100⟩) := by
  intro s m n
  constructor
  · rintro ⟨o, ho⟩
    have hA := update_payment_status_eq s n "paid" (some "demo_md5_hash") o ho
    have ho1 : get_order_by_number
        (sqlUpdateByNumber s n (paymentUpd "paid" (some "demo_md5_hash"))) n
        = some (paymentUpd "paid" (some "demo_md5_hash") o) := by
      rw [gobn_sqlUpdateByNumber s n (paymentUpd "paid" (some "demo_md5_hash"))
        (fun r => rfl), ho, Option.map_some']
    have hB := update_order_status_eq _ n "preparing" _ ho1
    have hres : check_payment_status_demo s m n
        = (sqlUpdateByNumber
             (sqlUpdateByNumber s n (paymentUpd "paid" (some "demo_md5_hash"))) n
             (statusUpd "preparing"),
           modCheck ((List.range 10).foldl (fun acc i => modCheck acc n (simStep i))
               (dset m n ⟨"processing", 0⟩)) n
             (fun e => { e with status := "paid", progress := 100 })) := by
      simp only [check_payment_status_demo, hA, hB]
    have hres1 : (check_payment_status_demo s m n).1
        = sqlUpdateByNumber
            (sqlUpdateByNumber s n (paymentUpd "paid" (some "demo_md5_hash"))) n
            (statusUpd "preparing") := by rw [hres]
    have hres2 : (check_payment_status_demo s m n).2
        = modCheck ((List.range 10).foldl (fun acc i => modCheck acc n (simStep i))
            (dset m n ⟨"processing", 0⟩)) n
            (fun e => { e with status := "paid", progress := 100 }) := by rw [hres]
    have hget2 : get_order_by_number (check_payment_status_demo s m n).1 n
        = some (statusUpd "preparing" (paymentUpd "paid" (some "demo_md5_hash") o)) := by
      rw [hres1, gobn_sqlUpdateByNumber
        (sqlUpdateByNumber s n (paymentUpd "paid" (some "demo_md5_hash"))) n
        (statusUpd "preparing") (fun r => rfl), ho1, Option.map_some']
    have hdget2 : dget (check_payment_status_demo s m n).2 n
        = some ⟨"paid", 100⟩ := by
      rw [hres2, dget_modCheck_self, dget_foldl_modCheck, dget_dset_self]
      rfl
    refine ⟨⟨_, hget2, rfl, rfl⟩, hdget2, ?_⟩
    simp only [get_payment_status, hget2, hdget2]
  · intro ho
    have hA : update_order_payment_status s n "paid" (some "demo_md5_hash") = none := by
      simp [update_order_payment_status, ho]
    have hres : check_payment_status_demo s m n
        = (s, modCheck ((List.range 10).foldl (fun acc i => modCheck acc n (simStep i))
            (dset m n ⟨"processing", 0⟩)) n
            (fun e => { e with status := "failed", progress := 100 })) := by
      simp only [check_payment_status_demo, hA]
    have hres2 : (check_payment_status_demo s m n).2
        = modCheck ((List.range 10).foldl (fun acc i => modCheck acc n (simStep i))
            (dset m n ⟨"processing", 0⟩)) n
            (fun e => { e with status := "failed", progress := 100 }) := by rw [hres]
    constructor
    · rw [hres]
    · rw [hres2, dget_modCheck_self, dget_foldl_modCheck, dget_dset_self]
      rfl

/-- C1 witness: the success branch of `payment_simulator_spec` run for the concrete
pending order. -/
theorem payment_simulator_spec_witness :
    (∃ r, get_order_by_number
        (check_payment_status_demo [pendingOrder] [] "BH20250101AB12CD34").1
        "BH20250101AB12CD34" = some r ∧
      r.payment_status = "paid" ∧ r.khqr_md5 = some "demo_md5_hash") ∧
    dget (check_payment_status_demo [pendingOrder] [] "BH20250101AB12CD34").2
      "BH20250101AB12CD34" = some ⟨"paid", 100⟩ ∧
    get_payment_status (check_payment_status_demo [pendingOrder] [] "BH20250101AB12CD34").1
      (check_payment_status_demo [pendingOrder] [] "BH20250101AB12CD34").2
      "BH20250101AB12CD34" = .ok ("BH20250101AB12CD34", "paid") :=
  (payment_simulator_spec [pendingOrder] [] "BH20250101AB12CD34").1 ⟨pendingOrder, rfl⟩

end CoffeeBackend
